import Mathlib

/-!
Shallow embedding of the TL;DRist content-acquisition pipeline
(`src/tldrist`), covering the orchestrator (`services/orchestrator.py`),
the article fetcher / content extractor (`clients/article.py`), the
summarizer's figure-extraction strategies (`services/summarizer.py`) and
the Gemini figure-identification reply parsing (`clients/gemini.py`).

External collaborators (Todoist, httpx, trafilatura, readability, fitz,
Vertex AI) are modelled as oracle functions supplied through environment
structures; the repository's own control flow and arithmetic are
translated directly from the Python source.
-/

namespace Tldrist

/-- Python truthiness / byte strings: bytes are modelled as `List Nat`. -/
abbrev Bytes := List Nat

/-- `TodoistTask` (clients/todoist.py): only the fields the orchestrator
reads (`id`, `url`). `url is None` marks an ineligible task. -/
structure TodoistTask where
  id : String
  url : Option String
deriving Repr, DecidableEq

/-- `ProcessedArticle` (services/summarizer.py). `processed_at` is a
timestamp, modelled abstractly as a `Nat`. -/
structure ProcessedArticle where
  task_id : String
  url : String
  title : String
  summary : String
  processed_at : Nat
  image_data : Option Bytes := none
  image_mime_type : Option String := none
  image_caption : Option String := none
deriving Repr, DecidableEq

/-- `FailedArticle` (models.py): url plus short failure reason. -/
structure FailedArticle where
  url : String
  reason : String
deriving Repr, DecidableEq

/-- Outcome of `Orchestrator._process_task` for one task, as observed at
the `asyncio.gather(..., return_exceptions=True)` boundary: a
`ProcessedArticle`, a `FailedArticle`, or an escaped exception carrying a
message. -/
inductive TaskOutcome where
  | processed (a : ProcessedArticle)
  | failed (f : FailedArticle)
  | exn (msg : String)
deriving Repr, DecidableEq

/-- `OrchestrationResult` (services/orchestrator.py, lines 24-38). -/
structure OrchestrationResult where
  tasks_found : Nat
  articles_processed : Nat
  articles_failed : Nat
  tasks_updated : Nat
  tasks_update_failed : Nat
  tasks_closed : Nat
  tasks_close_failed : Nat
  email_sent : Bool
  dry_run : Bool
  skipped : Bool := false
  podcast_url : Option String := none
deriving Repr, DecidableEq

/-- Environment of external effects for `Orchestrator.run`: the task list
returned by `todoist.get_tasks`, the per-task outcome of
`_process_task` (fetch + summarize), the podcast/update plumbing. -/
structure OrchEnv where
  tasks : List TodoistTask
  processTask : TodoistTask → TaskOutcome
  podcastResult : List ProcessedArticle → Option String
  updateClose : List ProcessedArticle → Nat × Nat × Nat × Nat

/-- Observable output of one `run`: the returned result plus the lists
handed to `compose_digest`, the tasks actually passed to
`_process_task` (fetch attempts), and whether a digest was composed. -/
structure RunOutput where
  result : OrchestrationResult
  processed : List ProcessedArticle
  failed : List FailedArticle
  attempted : List TodoistTask
  digestComposed : Bool

/-- The `for task, result in zip(tasks_with_urls, results)` loop
(orchestrator.py lines 152-159): partition outcomes into the
`processed_articles` and `failed_articles` lists, preserving input order;
an escaped exception becomes `FailedArticle(url=task.url or "", reason=str(e))`. -/
def partitionResults : List (TodoistTask × TaskOutcome) →
    List ProcessedArticle × List FailedArticle
  | [] => ([], [])
  | (t, o) :: rest =>
    let (ps, fs) := partitionResults rest
    match o with
    | .processed a => (a :: ps, fs)
    | .failed f => (ps, f :: fs)
    | .exn msg => (ps, ⟨t.url.getD "", msg⟩ :: fs)

/-- Python list slicing `l[:k]` for an `int` bound `k` (negative bounds
count from the end, clamped at zero). -/
def pyPrefix (k : Int) (l : List α) : List α :=
  if 0 ≤ k then l.take k.toNat else l.take ((l.length : Int) + k).toNat

/-- The guard `min is not None and len(tasks_with_urls) < min`
(orchestrator.py line 102). -/
def belowMin (min : Option Int) (found : Nat) : Bool :=
  match min with
  | some m => (found : Int) < m
  | none => false

/-- `Orchestrator.run` (orchestrator.py lines 70-253), with the external
effects drawn from `env`.  `min`/`max` are the optional thresholds. -/
def Orchestrator.run (env : OrchEnv) (dry_run : Bool)
    (min max : Option Int) : RunOutput :=
  let tasks_with_urls := env.tasks.filter (fun t => t.url.isSome)
  -- minimum-threshold check (lines 102-119)
  if belowMin min tasks_with_urls.length then
    { result :=
        { tasks_found := tasks_with_urls.length
          articles_processed := 0
          articles_failed := 0
          tasks_updated := 0
          tasks_update_failed := 0
          tasks_closed := 0
          tasks_close_failed := 0
          email_sent := false
          dry_run := dry_run
          skipped := true }
      processed := []
      failed := []
      attempted := []
      digestComposed := false }
  -- empty-batch branch (lines 121-141): still composes an (empty) digest
  else if tasks_with_urls.isEmpty then
    { result :=
        { tasks_found := 0
          articles_processed := 0
          articles_failed := 0
          tasks_updated := 0
          tasks_update_failed := 0
          tasks_closed := 0
          tasks_close_failed := 0
          email_sent := !dry_run
          dry_run := dry_run }
      processed := []
      failed := []
      attempted := []
      digestComposed := true }
  else
    -- fan-out over all eligible tasks (lines 147-159)
    let results := tasks_with_urls.map (fun t => (t, env.processTask t))
    let parts := partitionResults results
    -- max truncation applies only to successes (lines 161-163)
    let processed_articles :=
      match max with
      | some k => pyPrefix k parts.1
      | none => parts.1
    let failed_articles := parts.2
    let podcast_url := env.podcastResult processed_articles
    let uc := if dry_run then (0, 0, 0, 0) else env.updateClose processed_articles
    { result :=
        { tasks_found := tasks_with_urls.length
          articles_processed := processed_articles.length
          articles_failed := failed_articles.length
          tasks_updated := uc.1
          tasks_update_failed := uc.2.1
          tasks_closed := uc.2.2.1
          tasks_close_failed := uc.2.2.2
          email_sent := !dry_run
          dry_run := dry_run
          podcast_url := podcast_url }
      processed := processed_articles
      failed := failed_articles
      attempted := tasks_with_urls
      digestComposed := true }

/-! ## Article fetching and content extraction (clients/article.py) -/

/-- Word-run counter: counts the maximal non-whitespace runs of a
character list (`inWord` tracks whether the previous character was
inside a word). -/
def countWordsAux : List Char → Bool → Nat
  | [], _ => 0
  | c :: cs, inWord =>
    if c.isWhitespace then countWordsAux cs false
    else (if inWord then 0 else 1) + countWordsAux cs true

/-- Python `len(s.split())`: splitting on whitespace runs and dropping
empty pieces leaves exactly the maximal non-whitespace runs, so the word
count is the number of those runs. -/
def pyWordCount (s : String) : Nat := countWordsAux s.data false

/-- `Article` (clients/article.py lines 65-77). -/
structure Article where
  url : String
  title : String
  content : String
  word_count : Nat
deriving Repr, DecidableEq

/-- `Article.is_valid`: `word_count >= 50`. -/
def Article.is_valid (a : Article) : Bool := 50 ≤ a.word_count

/-- `ArxivContent` (clients/article.py lines 55-62). -/
structure ArxivContent where
  url : String
  pdf_url : String
  title : String
  pdf_bytes : Bytes
deriving Repr, DecidableEq

/-- Match of `\d+\.\d+(?:v\d+)?` at the head of a character list,
returning the greedily matched identifier (the regex group). -/
def matchArxivId (cs : List Char) : Option (List Char) :=
  let d1 := cs.takeWhile Char.isDigit
  let rest1 := cs.dropWhile Char.isDigit
  if d1 = [] then none else
  match rest1 with
  | '.' :: rest2 =>
    let d2 := rest2.takeWhile Char.isDigit
    let rest3 := rest2.dropWhile Char.isDigit
    if d2 = [] then none else
    match rest3 with
    | 'v' :: rest4 =>
      let d3 := rest4.takeWhile Char.isDigit
      if d3 = [] then some (d1 ++ '.' :: d2)
      else some (d1 ++ '.' :: d2 ++ 'v' :: d3)
    | _ => some (d1 ++ '.' :: d2)
  | _ => none

/-- `re.match` of `https?://arxiv\.org/<kind>/(\d+\.\d+(?:v\d+)?)` against
`url` (anchored at the start, rest unconstrained), returning group 1. -/
def arxivMatch (kind url : String) : Option String :=
  let tryP (p : String) : Option String :=
    if p.data.isPrefixOf url.data then
      (matchArxivId (url.data.drop p.data.length)).map (fun cs => String.mk cs)
    else none
  (tryP ("https://arxiv.org/" ++ kind ++ "/")).orElse
    (fun _ => tryP ("http://arxiv.org/" ++ kind ++ "/"))

/-- `ARXIV_ABS_PATTERN.match url` (group 1). -/
def arxivAbsMatch (url : String) : Option String := arxivMatch "abs" url

/-- `ARXIV_PDF_PATTERN.match url` (group 1). -/
def arxivPdfMatch (url : String) : Option String := arxivMatch "pdf" url

/-- `is_arxiv_url` (clients/article.py lines 27-29). -/
def is_arxiv_url (url : String) : Bool :=
  (arxivAbsMatch url).isSome || (arxivPdfMatch url).isSome

/-- `arxiv_url_to_pdf_url` (clients/article.py lines 32-52). -/
def arxiv_url_to_pdf_url (url : String) : String :=
  match arxivAbsMatch url with
  | some arxiv_id => "https://arxiv.org/pdf/" ++ arxiv_id ++ ".pdf"
  | none =>
    match arxivPdfMatch url with
    | some arxiv_id => "https://arxiv.org/pdf/" ++ arxiv_id ++ ".pdf"
    | none => url

/-- Python `needle in hay` on strings: substring containment. -/
def strContains (hay needle : String) : Bool :=
  (List.range (hay.data.length + 1)).any
    (fun i => needle.data.isPrefixOf (hay.data.drop i))

/-- An HTTP response as the fetcher reads it: body text, raw bytes, and
the `content-type` header (defaulted to `""` when absent). -/
structure HttpResp where
  text : String
  content : Bytes
  content_type : String
deriving Repr, DecidableEq

/-- Outcome of `self._client.get(url)` followed by `raise_for_status()`:
success, an HTTP status error, a timeout, another transport error, or any
other exception (`other`). -/
inductive GetResult where
  | ok (resp : HttpResp)
  | httpError (status : Nat)
  | timeout
  | requestError (detail : String)
  | other (msg : String)
deriving Repr, DecidableEq

/-- Result of a fetcher call: success, a raised `FetchError` carrying its
reason, or a non-`FetchError` exception propagating out. -/
inductive FetchResult (α : Type) where
  | ok (a : α)
  | fetchError (reason : String)
  | raised (msg : String)
deriving Repr, DecidableEq

/-- External collaborators of `ArticleFetcher`: the HTTP client, and the
trafilatura / readability extractors.
`extract_metadata html` is `some t` exactly when
`trafilatura.extract_metadata(html)` yields a truthy title `t`;
`trafilatura_extract` is the raw `trafilatura.extract` result;
`readability html` is `none` when `Document(html)` processing raises, and
otherwise `some (doc_title, sanitize(doc.summary()) or "")`. -/
structure FetchEnv where
  get : String → GetResult
  extract_metadata : String → Option String
  trafilatura_extract : String → Option String
  readability : String → Option (String × String)

/-- `ArticleFetcher._extract_with_readability` (article.py lines 184-193). -/
def extract_with_readability (env : FetchEnv) (html fallback_title : String) :
    String × String :=
  match env.readability html with
  | none => ("", fallback_title)
  | some (docTitle, content) =>
    (content, if fallback_title ≠ "" then fallback_title else docTitle)

/-- The final `(content, title)` candidate of
`ArticleFetcher._extract_content` (article.py lines 161-173): the primary
trafilatura extraction, replaced by the readability fallback when it is
empty or under 50 words.  `none` and `""` from `trafilatura.extract`
behave identically (`not content`), so both are read off as `""`. -/
def finalCandidate (env : FetchEnv) (html : String) : String × String :=
  let title := (env.extract_metadata html).getD ""
  let c0 := (env.trafilatura_extract html).getD ""
  if c0 = "" ∨ pyWordCount c0 < 50 then extract_with_readability env html title
  else (c0, title)

/-- `ArticleFetcher._extract_content` (article.py lines 156-182): gate the
final candidate on non-emptiness and the 50-word threshold. -/
def extract_content (env : FetchEnv) (url html : String) : Option Article :=
  let cp := finalCandidate env html
  if cp.1 = "" then none
  else if pyWordCount cp.1 < 50 then none
  else some { url := url, title := cp.2, content := cp.1,
              word_count := pyWordCount cp.1 }

/-- `ArticleFetcher._fetch_html` (article.py lines 136-154): transport
outcomes mapped to `FetchError` reasons; an exception outside the three
handled classes propagates. -/
def fetchHtml (env : FetchEnv) (url : String) : FetchResult String :=
  match env.get url with
  | .ok resp => .ok resp.text
  | .httpError s => .fetchError ("HTTP " ++ toString s)
  | .timeout => .fetchError "timeout"
  | .requestError d => .fetchError ("request error: " ++ d)
  | .other m => .raised m

/-- `ArticleFetcher.fetch` (article.py lines 107-134). -/
def ArticleFetcher.fetch (env : FetchEnv) (url : String) :
    FetchResult Article :=
  match fetchHtml env url with
  | .raised m => .raised m
  | .fetchError r => .fetchError r
  | .ok html =>
    match extract_content env url html with
    | some a =>
      if a.is_valid then .ok a else .fetchError "content extraction failed"
    | none => .fetchError "content extraction failed"

/-- The PDF-retrieval half of `ArticleFetcher.fetch_arxiv`
(article.py lines 227-249), after the title has been resolved; every
exception class is caught and converted to a `FetchError`. -/
def fetchArxivPdfStep (env : FetchEnv) (url pdf_url title : String) :
    FetchResult ArxivContent :=
  match env.get pdf_url with
  | .ok pdfResp =>
    if strContains pdfResp.content_type "application/pdf" then
      .ok { url := url, pdf_url := pdf_url, title := title,
            pdf_bytes := pdfResp.content }
    else .fetchError "response is not a PDF"
  | .httpError s => .fetchError ("HTTP " ++ toString s)
  | .timeout => .fetchError "timeout"
  | .requestError d => .fetchError ("request error: " ++ d)
  | .other m => .fetchError m

/-- `ArticleFetcher.fetch_arxiv` (article.py lines 195-264). -/
def ArticleFetcher.fetch_arxiv (env : FetchEnv) (url : String) :
    FetchResult ArxivContent :=
  let pdf_url := arxiv_url_to_pdf_url url
  match (arxivAbsMatch url).orElse (fun _ => arxivPdfMatch url) with
  | some arxiv_id =>
    match env.get ("https://arxiv.org/abs/" ++ arxiv_id) with
    | .ok absResp =>
      let title := (env.extract_metadata absResp.text).getD
        ("arXiv:" ++ arxiv_id)
      fetchArxivPdfStep env url pdf_url title
    | .httpError s => .fetchError ("HTTP " ++ toString s)
    | .timeout => .fetchError "timeout"
    | .requestError d => .fetchError ("request error: " ++ d)
    | .other m => .fetchError m
  | none => fetchArxivPdfStep env url pdf_url "arXiv Paper"

/-! ## Figure extraction (services/summarizer.py) -/

/-- `FigureInfo` (clients/gemini.py lines 67-74). -/
structure FigureInfo where
  figure_number : Option String
  page_number : Option Int
  description : Option String
  reason : Option String
deriving Repr, DecidableEq

/-- One embedded raster image as `doc.extract_image(xref)` reports it:
pixel dimensions, raw bytes and the embedded format extension. -/
structure RasterImage where
  width : Nat
  height : Nat
  image : Bytes
  ext : String
deriving Repr, DecidableEq

/-- A fitz rectangle. PDF coordinates are floats; the geometry the code
computes (`+`, `-`, `*`, `max`) is modelled exactly over `ℚ`. -/
structure Rect where
  x0 : ℚ
  y0 : ℚ
  x1 : ℚ
  y1 : ℚ
deriving Repr, DecidableEq

/-- `rect.height` of a (normalized, `y0 ≤ y1`) fitz rectangle. -/
def Rect.height (r : Rect) : ℚ := r.y1 - r.y0

/-- A fitz page as the extractor observes it: the `extract_image` result
for each xref listed by `page.get_images(full=True)` (`none` for a falsy
result), the page rectangle, the `search_for` text search, and
`get_pixmap(matrix, clip).tobytes("png")` (`none` when rendering raises). -/
structure Page where
  images : List (Option RasterImage)
  rect : Rect
  search_for : String → List Rect
  get_pixmap : ℚ → Rect → Option Bytes

/-- A fitz document: its pages. -/
structure Doc where
  pages : List Page

/-- External collaborators of the figure extractor: `fitz.open` on a byte
stream (`Except.error` when it raises on a corrupt stream) and Python's
`re.escape`. -/
structure FigEnv where
  openPdf : Bytes → Except String Doc
  re_escape : String → String

/-- The selection loop of `_extract_largest_raster_image`
(summarizer.py lines 279-288): walk the images, keeping the first image
whose `width * height` strictly exceeds the best area so far (initially
`0`); falsy `extract_image` results are skipped. -/
def selectLargest : List (Option RasterImage) → Option RasterImage → Nat →
    Option RasterImage
  | [], best, _ => best
  | none :: rest, best, area => selectLargest rest best area
  | some b :: rest, best, area =>
    if area < b.width * b.height then
      selectLargest rest (some b) (b.width * b.height)
    else selectLargest rest best area

/-- `f"image/{ext}" if ext != "jpeg" else "image/jpeg"`
(summarizer.py line 293). -/
def imageMime (ext : String) : String :=
  if ext ≠ "jpeg" then "image/" ++ ext else "image/jpeg"

/-- `SummarizerService._extract_largest_raster_image`
(summarizer.py lines 258-296); the `doc.extract_image` oracle is already
folded into `page.images`. -/
def extract_largest_raster_image (page : Page) : Option Bytes × Option String :=
  if page.images = [] then (none, none)
  else
    match selectLargest page.images none 0 with
    | some b => (some b.image, some (imageMime b.ext))
    | none => (none, none)

/-- The three caption regex strings (summarizer.py lines 200-204), with
`re.escape` applied to the figure number. -/
def captionPatterns (esc : String → String) (figure_number : String) :
    List String :=
  [ "Figure\\s*" ++ esc figure_number ++ "[:\\.\\s]",
    "Fig\\.\\s*" ++ esc figure_number ++ "[:\\.\\s]",
    "FIGURE\\s*" ++ esc figure_number ++ "[:\\.\\s]" ]

/-- The pattern loop (summarizer.py lines 206-210): evaluate patterns in
order, stopping at the first with a non-empty hit list; if none hits the
result is the empty list. -/
def firstHit (pats : List String) (search : String → List Rect) : List Rect :=
  match pats with
  | [] => []
  | p :: ps =>
    let r := search p
    if r ≠ [] then r else firstHit ps search

/-- `SummarizerService._get_clip_rect_from_caption`
(summarizer.py lines 185-231); `0.4` is the exact rational `2/5`. -/
def get_clip_rect_from_caption (esc : String → String) (page : Page)
    (figure_number : String) : Option Rect :=
  match firstHit (captionPatterns esc figure_number) page.search_for with
  | [] => none
  | caption_rect :: _ =>
    let page_rect := page.rect
    let margin : ℚ := 20
    let figure_top :=
      max page_rect.y0 (caption_rect.y0 - page_rect.height * (2/5))
    let figure_bottom := caption_rect.y0 - 5
    some { x0 := page_rect.x0 + margin, y0 := figure_top,
           x1 := page_rect.x1 - margin, y1 := figure_bottom }

/-- `SummarizerService._render_clip_region` (summarizer.py lines 233-256):
render at `zoom = dpi / 72`; a rendering exception yields `none`. -/
def render_clip_region (page : Page) (clip_rect : Rect) (dpi : ℚ) :
    Option Bytes :=
  let zoom := dpi / 72
  page.get_pixmap zoom clip_rect

/-- The in-range strategy chain of `_extract_figure_image`
(summarizer.py lines 153-179): Strategy A (largest embedded raster),
then — only if it found nothing and the figure-number hint is truthy —
Strategy B (caption-anchored clip rendered at 150 dpi). -/
def figureFromPage (esc : String → String) (page : Page)
    (figure_number : Option String) : Option Bytes × Option String :=
  let r := extract_largest_raster_image page
  if r.1.isSome then r
  else
    match figure_number with
    | some fn =>
      if fn ≠ "" then
        match get_clip_rect_from_caption esc page fn with
        | some clip_rect =>
          match render_clip_region page clip_rect 150 with
          | some image_bytes => (some image_bytes, some "image/png")
          | none => (none, none)
        | none => (none, none)
      else (none, none)
    | none => (none, none)

/-- `SummarizerService._extract_figure_image`
(summarizer.py lines 117-183): hint/page validation and exception
swallowing around the strategy chain. -/
def extract_figure_image (env : FigEnv) (pdf_bytes : Bytes)
    (figure_info : FigureInfo) : Option Bytes × Option String :=
  match figure_info.page_number with
  | none => (none, none)
  | some page_number =>
    match env.openPdf pdf_bytes with
    | .error _ => (none, none)
    | .ok doc =>
      if h : page_number - 1 < 0 ∨
          (doc.pages.length : Int) ≤ page_number - 1 then
        (none, none)
      else
        figureFromPage env.re_escape
          (doc.pages.get ⟨(page_number - 1).toNat, by omega⟩)
          figure_info.figure_number

/-! ## Figure identification reply parsing (clients/gemini.py) -/

/-- The four `data.get(...)` fields of the parsed JSON reply. -/
structure FigureJson where
  figure_number : Option String
  page_number : Option Int
  description : Option String
  reason : Option String
deriving Repr, DecidableEq

/-- External collaborators of `identify_important_figure`: the generation
call (`Except.error` when it raises or reading `.text` raises) and
`json.loads` (`Except.error` on `JSONDecodeError`). -/
structure GeminiEnv where
  generate : Bytes → Except String String
  json_loads : String → Except String FigureJson

/-- Python `s.strip()`: drop whitespace from both ends. -/
def pyStrip (s : String) : String :=
  String.mk
    (((s.data.dropWhile Char.isWhitespace).reverse.dropWhile
      Char.isWhitespace).reverse)

/-- Python `s.split("\n")` on the underlying characters. -/
def splitLines : List Char → List (List Char)
  | [] => [[]]
  | c :: rest =>
    match splitLines rest with
    | [] => [[]]
    | l :: ls => if c = '\n' then [] :: l :: ls else (c :: l) :: ls

/-- Python `"\n".join(lines)` on the underlying characters. -/
def joinLines : List (List Char) → List Char
  | [] => []
  | [l] => l
  | l :: ls => l ++ '\n' :: joinLines ls

/-- The code-fence handling of `identify_important_figure`
(gemini.py lines 266-269): when the stripped reply starts with a fence
and splits into more than two lines, keep only the middle lines
(`lines[1:-1]`). -/
def stripCodeFence (response_text : String) : String :=
  if ("```".data).isPrefixOf response_text.data then
    let lines := splitLines response_text.data
    if lines.length > 2 then String.mk (joinLines ((lines.drop 1).dropLast))
    else response_text
  else response_text

/-- `GeminiClient.identify_important_figure` (gemini.py lines 239-292). -/
def identify_important_figure (env : GeminiEnv) (pdf_bytes : Bytes) :
    Option FigureInfo :=
  match env.generate pdf_bytes with
  | .error _ => none
  | .ok raw =>
    let response_text := stripCodeFence (pyStrip raw)
    match env.json_loads response_text with
    | .error _ => none
    | .ok d =>
      some { figure_number := d.figure_number, page_number := d.page_number,
             description := d.description, reason := d.reason }

/-! ## Concrete sample data used by counterexamples and witnesses -/

/-- A processed article used as a concrete `_process_task` success. -/
def sampleProcessedA : ProcessedArticle :=
  { task_id := "1", url := "https://example.com/a", title := "A",
    summary := "sa", processed_at := 0 }

/-- A second processed article for two-task batches. -/
def sampleProcessedB : ProcessedArticle :=
  { task_id := "2", url := "https://example.com/b", title := "B",
    summary := "sb", processed_at := 0 }

/-- One eligible task. -/
def sampleTask1 : TodoistTask := { id := "1", url := some "https://example.com/a" }

/-- A second eligible task. -/
def sampleTask2 : TodoistTask := { id := "2", url := some "https://example.com/b" }

/-- Orchestrator environment: one eligible task that succeeds. -/
def envOneSuccess : OrchEnv :=
  { tasks := [sampleTask1]
    processTask := fun _ => .processed sampleProcessedA
    podcastResult := fun _ => none
    updateClose := fun _ => (0, 0, 0, 0) }

/-- Orchestrator environment: two eligible tasks, the first succeeds and
the second fails with an HTTP error. -/
def envMixed : OrchEnv :=
  { tasks := [sampleTask1, sampleTask2]
    processTask := fun t =>
      if t.id = "1" then .processed sampleProcessedA
      else .failed { url := "https://example.com/b", reason := "HTTP 403" }
    podcastResult := fun _ => none
    updateClose := fun _ => (0, 0, 0, 0) }

/-- Orchestrator environment with no eligible task (the only task has no
resolvable URL). -/
def envNoUrls : OrchEnv :=
  { tasks := [{ id := "9", url := none }]
    processTask := fun _ => .exn "unreachable"
    podcastResult := fun _ => none
    updateClose := fun _ => (0, 0, 0, 0) }

/-- A string of exactly 50 words. -/
def fiftyWords : String := String.intercalate " " (List.replicate 50 "w")

/-- A concrete HTTP response whose body the extractor will work on. -/
def resp50 : HttpResp := { text := "<html>body</html>", content := [], content_type := "text/html" }

/-- Fetch environment whose primary extractor yields a 50-word candidate. -/
def env50 : FetchEnv :=
  { get := fun _ => .ok resp50
    extract_metadata := fun _ => some "Title"
    trafilatura_extract := fun _ => some fiftyWords
    readability := fun _ => none }

/-- Abstract-page response for the concrete arXiv fetch. -/
def respAbs : HttpResp :=
  { text := "abs page", content := [], content_type := "text/html" }

/-- PDF response for the concrete arXiv fetch. -/
def respPdf : HttpResp :=
  { text := "", content := [1, 2, 3], content_type := "application/pdf" }

/-- Fetch environment for a concrete arXiv paper whose abstract page
yields no metadata title. -/
def envArxiv : FetchEnv :=
  { get := fun u =>
      if u = "https://arxiv.org/abs/1234.5678" then .ok respAbs
      else if u = "https://arxiv.org/pdf/1234.5678.pdf" then .ok respPdf
      else .timeout
    extract_metadata := fun _ => none
    trafilatura_extract := fun _ => none
    readability := fun _ => none }

/-- US-letter page rectangle. -/
def letterRect : Rect := { x0 := 0, y0 := 0, x1 := 612, y1 := 792 }

/-- A page with no embedded images, no caption hits and failing renderer. -/
def pageEmpty : Page :=
  { images := [], rect := letterRect, search_for := fun _ => [],
    get_pixmap := fun _ _ => none }

/-- A one-page document. -/
def docOnePage : Doc := { pages := [pageEmpty] }

/-- Figure-extraction environment: byte string `[37]` opens as the
one-page document, anything else is a corrupt stream. -/
def envFig : FigEnv :=
  { openPdf := fun b => if b = [37] then .ok docOnePage
      else .error "cannot open broken document"
    re_escape := fun s => s }

/-- Figure hint with no page number. -/
def fiNoPage : FigureInfo :=
  { figure_number := some "1", page_number := none,
    description := none, reason := none }

/-- Figure hint for page 1. -/
def fiPage1 : FigureInfo :=
  { figure_number := some "2", page_number := some 1,
    description := none, reason := none }

/-- Figure hint for an out-of-range page. -/
def fiPage999 : FigureInfo :=
  { figure_number := none, page_number := some 999,
    description := none, reason := none }

/-- An extracted image reporting zero dimensions. -/
def zeroAreaImage : RasterImage :=
  { width := 0, height := 0, image := [9], ext := "png" }

/-- A page whose only embedded raster image has zero area. -/
def pageZeroArea : Page :=
  { images := [some zeroAreaImage], rect := letterRect,
    search_for := fun _ => [], get_pixmap := fun _ _ => none }

/-- A small embedded image (area 4). -/
def imgSmall : RasterImage := { width := 2, height := 2, image := [1], ext := "png" }

/-- The first maximal-area embedded image (area 50). -/
def imgBig1 : RasterImage := { width := 10, height := 5, image := [2], ext := "jpeg" }

/-- A later image tying the maximal area (area 50). -/
def imgBig2 : RasterImage := { width := 5, height := 10, image := [3], ext := "png" }

/-- A page with several embedded images, including an area tie and one
falsy `extract_image` result. -/
def pageImgs : Page :=
  { images := [some imgSmall, none, some imgBig1, some imgBig2],
    rect := letterRect, search_for := fun _ => [],
    get_pixmap := fun _ _ => none }

/-- Bounding box of a concrete "Figure 2" caption hit. -/
def capRect : Rect := { x0 := 100, y0 := 500, x1 := 200, y1 := 510 }

/-- A page with no embedded images whose text search hits the first
caption pattern for figure "2", and whose renderer succeeds. -/
def pageCaption : Page :=
  { images := []
    rect := letterRect
    search_for := fun p =>
      if p = "Figure\\s*2[:\\.\\s]" then [capRect] else []
    get_pixmap := fun _ _ => some [42] }

/-- One-page document around `pageCaption`. -/
def docCaption : Doc := { pages := [pageCaption] }

/-- Figure-extraction environment that opens every stream as
`docCaption`, with the identity as `re.escape` (no special characters in
the concrete label). -/
def envFigCap : FigEnv :=
  { openPdf := fun _ => .ok docCaption, re_escape := fun s => s }

/-- Figure hint: figure "2" on page 1. -/
def fiCap : FigureInfo :=
  { figure_number := some "2", page_number := some 1,
    description := none, reason := none }

/-- A collaborator reply wrapped in a markdown code fence. -/
def fencedReply : String := "```json\n\x7b\"page_number\": 3\x7d\n```"

/-- The parse result of the fenced reply's JSON body. -/
def figJson3 : FigureJson :=
  { figure_number := some "1", page_number := some 3,
    description := none, reason := none }

/-- Gemini environment returning the fenced reply; only the exact
unfenced JSON body parses. -/
def geminiEnvFence : GeminiEnv :=
  { generate := fun _ => .ok fencedReply
    json_loads := fun s =>
      if s = "\x7b\"page_number\": 3\x7d" then .ok figJson3
      else .error "Expecting value" }

/-! ## Theorems -/

/-- Helper: every task outcome lands in exactly one of the two partition
lists, so the lengths add up to the input length. -/
theorem partitionResults_length (l : List (TodoistTask × TaskOutcome)) :
    (partitionResults l).1.length + (partitionResults l).2.length = l.length := by
  induction l with
  | nil => simp [partitionResults]
  | cons hd tl ih =>
    obtain ⟨tk, o⟩ := hd
    cases o <;> simp [partitionResults] <;> omega

/-- Helper: with the minimum unset and at least one eligible task, `run`
reaches the fan-out branch; this computes its output for any `max`. -/
theorem run_main_branch (env : OrchEnv) (dry_run : Bool) (max : Option Int)
    (hne : env.tasks.filter (fun t => t.url.isSome) ≠ []) :
    Orchestrator.run env dry_run none max =
      (let tasks_with_urls := env.tasks.filter (fun t => t.url.isSome)
       let parts := partitionResults
         (tasks_with_urls.map (fun t => (t, env.processTask t)))
       let processed_articles :=
         match max with
         | some k => pyPrefix k parts.1
         | none => parts.1
       let uc := if dry_run then (0, 0, 0, 0)
         else env.updateClose processed_articles
       { result :=
           { tasks_found := tasks_with_urls.length
             articles_processed := processed_articles.length
             articles_failed := parts.2.length
             tasks_updated := uc.1
             tasks_update_failed := uc.2.1
             tasks_closed := uc.2.2.1
             tasks_close_failed := uc.2.2.2
             email_sent := !dry_run
             dry_run := dry_run
             podcast_url := env.podcastResult processed_articles }
         processed := processed_articles
         failed := parts.2
         attempted := tasks_with_urls
         digestComposed := true }) := by
  have h2 : (env.tasks.filter (fun t => t.url.isSome)).isEmpty = false := by
    simpa [List.isEmpty_iff] using hne
  simp only [Orchestrator.run, belowMin, h2]
  rfl

/-- C1 counterexample: the claim asserts `processed + failed == N` for
every setting of `max`, but the reported counts are taken after the
`max` truncation: a batch of one eligible task whose processing succeeds,
run with `max = 0`, reports `tasks_found = 1` yet
`processed + failed = 0`. -/
theorem claim_C1_counterexample :
    (Orchestrator.run envOneSuccess true none (some 0)).result.tasks_found = 1 ∧
    (Orchestrator.run envOneSuccess true none (some 0)).result.articles_processed +
      (Orchestrator.run envOneSuccess true none (some 0)).result.articles_failed
      = 0 :=
  ⟨rfl, rfl⟩

/-- C1 (amended): for every task batch with `N > 0` eligible tasks and the
minimum threshold unset, every eligible task yields exactly one of
`ProcessedArticle`/`FailedArticle`, and with the `max` parameter unset the
reported counts satisfy `processed + failed = N`. -/
theorem claim_C1_amended_thm (env : OrchEnv) (dry_run : Bool) (N : Nat)
    (hN : (env.tasks.filter (fun t => t.url.isSome)).length = N)
    (hpos : 0 < N) :
    (Orchestrator.run env dry_run none none).result.articles_processed +
      (Orchestrator.run env dry_run none none).result.articles_failed = N := by
  have hne : env.tasks.filter (fun t => t.url.isSome) ≠ [] := by
    intro hE
    rw [hE] at hN
    simp at hN
    omega
  rw [run_main_branch env dry_run none hne]
  rw [← hN]
  simpa [List.length_map] using
    partitionResults_length
      ((env.tasks.filter (fun t => t.url.isSome)).map
        (fun t => (t, env.processTask t)))

/-- C1 witness: the amended claim evaluated on a concrete two-task batch
(one success, one failure) with `min` and `max` unset. -/
theorem claim_C1_witness :
    (Orchestrator.run envMixed false none none).result.articles_processed +
      (Orchestrator.run envMixed false none none).result.articles_failed = 2 :=
  claim_C1_amended_thm envMixed false 2 rfl (by decide)

/-- C2: with the minimum unset, running with `max = k` (`k ≥ 0`) yields
exactly the first `k` entries of the untruncated processed list, an
unchanged failed count, and all eligible tasks attempted regardless of
`k`. -/
theorem claim_C2_thm (env : OrchEnv) (dry_run : Bool) (k : Int)
    (hk : 0 ≤ k) :
    (Orchestrator.run env dry_run none (some k)).processed =
      ((Orchestrator.run env dry_run none none).processed).take k.toNat ∧
    (Orchestrator.run env dry_run none (some k)).result.articles_failed =
      (Orchestrator.run env dry_run none none).result.articles_failed ∧
    (Orchestrator.run env dry_run none (some k)).attempted =
      env.tasks.filter (fun t => t.url.isSome) := by
  by_cases hne : env.tasks.filter (fun t => t.url.isSome) = []
  · have h2 : (env.tasks.filter (fun t => t.url.isSome)).isEmpty = true := by
      simp [List.isEmpty_iff, hne]
    refine ⟨?_, ?_, ?_⟩ <;> simp [Orchestrator.run, belowMin, h2, hne]
  · rw [run_main_branch env dry_run (some k) hne,
      run_main_branch env dry_run none hne]
    exact ⟨by simp [pyPrefix, hk], rfl, rfl⟩

/-- C2 witness: the truncation property evaluated at `k = 1` on a concrete
two-task batch. -/
theorem claim_C2_witness :
    (Orchestrator.run envMixed false none (some 1)).processed =
      ((Orchestrator.run envMixed false none none).processed).take
        (1 : Int).toNat ∧
    (Orchestrator.run envMixed false none (some 1)).result.articles_failed =
      (Orchestrator.run envMixed false none none).result.articles_failed ∧
    (Orchestrator.run envMixed false none (some 1)).attempted =
      envMixed.tasks.filter (fun t => t.url.isSome) :=
  claim_C2_thm envMixed false 1 (by decide)

/-- C3: when a minimum `m` is configured and the eligible set is smaller,
`run` returns a skipped result with zero processed and failed counts, and
no task is handed to per-task processing (zero fetch attempts). -/
theorem claim_C3_thm (env : OrchEnv) (dry_run : Bool) (m : Int)
    (mx : Option Int)
    (hm : ((env.tasks.filter (fun t => t.url.isSome)).length : Int) < m) :
    (Orchestrator.run env dry_run (some m) mx).result.skipped = true ∧
    (Orchestrator.run env dry_run (some m) mx).result.articles_processed = 0 ∧
    (Orchestrator.run env dry_run (some m) mx).result.articles_failed = 0 ∧
    (Orchestrator.run env dry_run (some m) mx).attempted = [] := by
  have hb : belowMin (some m)
      (env.tasks.filter (fun t => t.url.isSome)).length = true := by
    simp [belowMin, hm]
  simp [Orchestrator.run, hb]

/-- C3 witness: a two-task batch against `min = 5` is skipped with no
attempts. -/
theorem claim_C3_witness :
    (Orchestrator.run envMixed false (some 5) none).result.skipped = true ∧
    (Orchestrator.run envMixed false (some 5) none).result.articles_processed
      = 0 ∧
    (Orchestrator.run envMixed false (some 5) none).result.articles_failed
      = 0 ∧
    (Orchestrator.run envMixed false (some 5) none).attempted = [] :=
  claim_C3_thm envMixed false 5 none (by decide)

/-- C10: with the minimum unset and no eligible task, `run` returns a
non-skipped result with all counts zero, attempts no task, and still
composes an (empty) digest. -/
theorem claim_C10_thm (env : OrchEnv) (dry_run : Bool) (mx : Option Int)
    (h : env.tasks.filter (fun t => t.url.isSome) = []) :
    (Orchestrator.run env dry_run none mx).result.skipped = false ∧
    (Orchestrator.run env dry_run none mx).result.tasks_found = 0 ∧
    (Orchestrator.run env dry_run none mx).result.articles_processed = 0 ∧
    (Orchestrator.run env dry_run none mx).result.articles_failed = 0 ∧
    (Orchestrator.run env dry_run none mx).attempted = [] ∧
    (Orchestrator.run env dry_run none mx).digestComposed = true := by
  have h2 : (env.tasks.filter (fun t => t.url.isSome)).isEmpty = true := by
    simp [List.isEmpty_iff, h]
  simp [Orchestrator.run, belowMin, h2]

/-- C10 witness: a batch whose only task has no URL, with `min` and `max`
unset. -/
theorem claim_C10_witness :
    (Orchestrator.run envNoUrls true none none).result.skipped = false ∧
    (Orchestrator.run envNoUrls true none none).result.tasks_found = 0 ∧
    (Orchestrator.run envNoUrls true none none).result.articles_processed
      = 0 ∧
    (Orchestrator.run envNoUrls true none none).result.articles_failed = 0 ∧
    (Orchestrator.run envNoUrls true none none).attempted = [] ∧
    (Orchestrator.run envNoUrls true none none).digestComposed = true :=
  claim_C10_thm envNoUrls true none rfl

/-- C4: once the HTML is retrieved, `fetch` succeeds (with a valid
article) exactly when the final extraction candidate has at least 50
words; below the threshold it raises the typed reason
`"content extraction failed"`. -/
theorem claim_C4_thm (env : FetchEnv) (url : String) (resp : HttpResp)
    (hok : env.get url = .ok resp) :
    ((∃ a, ArticleFetcher.fetch env url = .ok a ∧ a.is_valid = true) ↔
      50 ≤ pyWordCount (finalCandidate env resp.text).1) ∧
    (pyWordCount (finalCandidate env resp.text).1 < 50 →
      ArticleFetcher.fetch env url = .fetchError "content extraction failed") := by
  have hfh : fetchHtml env url = .ok resp.text := by simp [fetchHtml, hok]
  have hfetch : ArticleFetcher.fetch env url =
      (match extract_content env url resp.text with
       | some a =>
         if a.is_valid then FetchResult.ok a
         else FetchResult.fetchError "content extraction failed"
       | none => FetchResult.fetchError "content extraction failed") := by
    simp [ArticleFetcher.fetch, hfh]
  by_cases h2 : pyWordCount (finalCandidate env resp.text).1 < 50
  · have hec : extract_content env url resp.text = none := by
      by_cases h1 : (finalCandidate env resp.text).1 = ""
      · simp [extract_content, h1]
      · simp [extract_content, h1, h2]
    constructor
    · constructor
      · rintro ⟨a, ha, _⟩
        rw [hfetch, hec] at ha
        exact absurd ha (by simp)
      · intro h50
        omega
    · intro _
      rw [hfetch, hec]
  · push_neg at h2
    have h1 : (finalCandidate env resp.text).1 ≠ "" := by
      intro hE
      rw [hE] at h2
      have h0 : pyWordCount "" = 0 := by decide
      omega
    have hec : extract_content env url resp.text =
        some { url := url, title := (finalCandidate env resp.text).2,
               content := (finalCandidate env resp.text).1,
               word_count := pyWordCount (finalCandidate env resp.text).1 } := by
      simp only [extract_content]
      rw [if_neg h1, if_neg (by omega)]
    have hv : (Article.mk url (finalCandidate env resp.text).2
        (finalCandidate env resp.text).1
        (pyWordCount (finalCandidate env resp.text).1)).is_valid = true := by
      simp [Article.is_valid]
      omega
    constructor
    · constructor
      · intro _
        exact h2
      · intro _
        refine ⟨_, ?_, hv⟩
        rw [hfetch, hec]
        simp [hv]
    · intro hlt
      omega

/-- C4 witness: a concrete environment whose primary extractor yields a
50-word candidate; the threshold equivalence evaluated there. -/
theorem claim_C4_witness :
    ((∃ a, ArticleFetcher.fetch env50 "https://example.com" = .ok a ∧
        a.is_valid = true) ↔
      50 ≤ pyWordCount (finalCandidate env50 resp50.text).1) ∧
    (pyWordCount (finalCandidate env50 resp50.text).1 < 50 →
      ArticleFetcher.fetch env50 "https://example.com" =
        .fetchError "content extraction failed") :=
  claim_C4_thm env50 "https://example.com" resp50 rfl

/-- C9: for a PDF-class (arXiv) URL whose abstract page is retrieved but
yields no metadata title, `fetch_arxiv` falls back to the generated title
`"arXiv:{id}"` and still retrieves the PDF, returning the paper content
when the PDF response's declared content type is a PDF. -/
theorem claim_C9_thm (env : FetchEnv) (url arxiv_id : String)
    (absResp pdfResp : HttpResp)
    (hid : arxivAbsMatch url = some arxiv_id ∨
      (arxivAbsMatch url = none ∧ arxivPdfMatch url = some arxiv_id))
    (habs : env.get ("https://arxiv.org/abs/" ++ arxiv_id) = .ok absResp)
    (hmeta : env.extract_metadata absResp.text = none)
    (hpdf : env.get ("https://arxiv.org/pdf/" ++ arxiv_id ++ ".pdf") =
      .ok pdfResp)
    (hct : strContains pdfResp.content_type "application/pdf" = true) :
    ArticleFetcher.fetch_arxiv env url =
      .ok { url := url,
            pdf_url := "https://arxiv.org/pdf/" ++ arxiv_id ++ ".pdf",
            title := "arXiv:" ++ arxiv_id,
            pdf_bytes := pdfResp.content } := by
  rcases hid with h | ⟨hn, h⟩
  · have hpdfurl : arxiv_url_to_pdf_url url =
        "https://arxiv.org/pdf/" ++ arxiv_id ++ ".pdf" := by
      simp [arxiv_url_to_pdf_url, h]
    simp [ArticleFetcher.fetch_arxiv, hpdfurl, h, Option.orElse, habs, hmeta,
      fetchArxivPdfStep, hpdf, hct]
  · have hpdfurl : arxiv_url_to_pdf_url url =
        "https://arxiv.org/pdf/" ++ arxiv_id ++ ".pdf" := by
      simp [arxiv_url_to_pdf_url, hn, h]
    simp [ArticleFetcher.fetch_arxiv, hpdfurl, hn, h, Option.orElse, habs,
      hmeta, fetchArxivPdfStep, hpdf, hct]

/-- C9 witness: the concrete URL `https://arxiv.org/abs/1234.5678` in an
environment with no metadata title and a well-typed PDF response. -/
theorem claim_C9_witness :
    ArticleFetcher.fetch_arxiv envArxiv "https://arxiv.org/abs/1234.5678" =
      .ok { url := "https://arxiv.org/abs/1234.5678",
            pdf_url := "https://arxiv.org/pdf/" ++ "1234.5678" ++ ".pdf",
            title := "arXiv:" ++ "1234.5678",
            pdf_bytes := respPdf.content } :=
  claim_C9_thm envArxiv "https://arxiv.org/abs/1234.5678" "1234.5678"
    respAbs respPdf (Or.inl rfl) rfl rfl rfl (by decide)

/-- Helper: Strategy A either finds nothing at all or returns both bytes
and a mime type. -/
theorem extract_largest_cases (page : Page) :
    extract_largest_raster_image page = (none, none) ∨
    ∃ b m, extract_largest_raster_image page = (some b, some m) := by
  unfold extract_largest_raster_image
  split
  · exact Or.inl rfl
  · cases selectLargest page.images none 0 with
    | none => exact Or.inl rfl
    | some b => exact Or.inr ⟨_, _, rfl⟩

/-- Helper: the strategy chain on a page either degrades to fully-none or
returns both bytes and a mime type. -/
theorem figureFromPage_cases (esc : String → String) (page : Page)
    (fo : Option String) :
    figureFromPage esc page fo = (none, none) ∨
    ∃ b m, figureFromPage esc page fo = (some b, some m) := by
  rcases extract_largest_cases page with hA | ⟨b, m, hA⟩
  · simp only [figureFromPage, hA]
    simp only [Option.isSome_none, Bool.false_eq_true, if_false]
    cases fo with
    | none => exact Or.inl rfl
    | some fn =>
      by_cases hfe : fn = ""
      · simp [hfe]
      · simp only [ne_eq, hfe, not_false_eq_true, if_true]
        cases hclip : get_clip_rect_from_caption esc page fn with
        | none => exact Or.inl (by simp [hclip])
        | some cr =>
          cases hrend : render_clip_region page cr 150 with
          | none => exact Or.inl (by simp [hclip, hrend])
          | some bs => exact Or.inr ⟨bs, "image/png", by simp [hclip, hrend]⟩
  · simp only [figureFromPage, hA]
    exact Or.inr ⟨b, m, rfl⟩

/-- Helper: the whole figure extraction either degrades to fully-none or
returns both bytes and a mime type. -/
theorem extract_figure_image_cases (env : FigEnv) (pdf_bytes : Bytes)
    (fi : FigureInfo) :
    extract_figure_image env pdf_bytes fi = (none, none) ∨
    ∃ b m, extract_figure_image env pdf_bytes fi = (some b, some m) := by
  cases hpn : fi.page_number with
  | none => exact Or.inl (by simp [extract_figure_image, hpn])
  | some n =>
    cases hopen : env.openPdf pdf_bytes with
    | error e => exact Or.inl (by simp [extract_figure_image, hpn, hopen])
    | ok doc =>
      by_cases hr : n - 1 < 0 ∨ (doc.pages.length : Int) ≤ n - 1
      · left
        simp only [extract_figure_image, hpn, hopen]
        rw [dif_pos hr]
      · have hred : extract_figure_image env pdf_bytes fi =
            figureFromPage env.re_escape
              (doc.pages.get ⟨(n - 1).toNat, by omega⟩)
              fi.figure_number := by
          simp only [extract_figure_image, hpn, hopen]
          rw [dif_neg hr]
        rw [hred]
        exact figureFromPage_cases _ _ _

/-- C5: figure extraction (a total function here, so it cannot raise)
degrades to `(none, none)` whenever the page hint is missing, the PDF
stream fails to open, the 1-indexed page hint is out of range, or both
strategies come up empty — a missing figure never fails the item. -/
theorem claim_C5_thm (env : FigEnv) (pdf_bytes : Bytes) (fi : FigureInfo) :
    (fi.page_number = none →
      extract_figure_image env pdf_bytes fi = (none, none)) ∧
    (∀ e, env.openPdf pdf_bytes = .error e →
      extract_figure_image env pdf_bytes fi = (none, none)) ∧
    (∀ n doc, fi.page_number = some n → env.openPdf pdf_bytes = .ok doc →
      (n - 1 < 0 ∨ (doc.pages.length : Int) ≤ n - 1) →
      extract_figure_image env pdf_bytes fi = (none, none)) ∧
    ((extract_figure_image env pdf_bytes fi).1 = none →
      extract_figure_image env pdf_bytes fi = (none, none)) := by
  refine ⟨?_, ?_, ?_, ?_⟩
  · intro h
    simp [extract_figure_image, h]
  · intro e he
    cases hpn : fi.page_number with
    | none => simp [extract_figure_image, hpn]
    | some n => simp [extract_figure_image, hpn, he]
  · intro n doc hpn hok hr
    simp only [extract_figure_image, hpn, hok]
    rw [dif_pos hr]
  · rcases extract_figure_image_cases env pdf_bytes fi with h | ⟨b, m, h⟩
    · exact fun _ => h
    · intro h1
      rw [h] at h1
      simp at h1

/-- C5 witness: the four degradation cases evaluated on concrete inputs —
no page hint, a corrupt stream, page 999 of a one-page document, and a
page where both strategies fail. -/
theorem claim_C5_witness :
    extract_figure_image envFig [37] fiNoPage = (none, none) ∧
    extract_figure_image envFig [0] fiPage1 = (none, none) ∧
    extract_figure_image envFig [37] fiPage999 = (none, none) ∧
    extract_figure_image envFig [37] fiPage1 = (none, none) :=
  ⟨(claim_C5_thm envFig [37] fiNoPage).1 rfl,
   (claim_C5_thm envFig [0] fiPage1).2.1 "cannot open broken document" rfl,
   (claim_C5_thm envFig [37] fiPage999).2.2.1 999 docOnePage rfl rfl
     (by decide),
   (claim_C5_thm envFig [37] fiPage1).2.2.2 rfl⟩

/-- Helper: full characterization of the Strategy-A selection loop.
Either nothing beats the incoming best area `A` and the accumulator is
returned, or the result is the first extracted image strictly beating
both `A` and everything before it, with nothing after it strictly
larger. -/
theorem selectLargest_spec (imgs : List (Option RasterImage))
    (best : Option RasterImage) (A : Nat) :
    (selectLargest imgs best A = best ∧
      ∀ c ∈ imgs.filterMap id, c.width * c.height ≤ A) ∨
    (∃ l₁ b l₂, imgs.filterMap id = l₁ ++ b :: l₂ ∧
      selectLargest imgs best A = some b ∧ A < b.width * b.height ∧
      (∀ c ∈ l₁, c.width * c.height < b.width * b.height) ∧
      (∀ c ∈ l₂, c.width * c.height ≤ b.width * b.height)) := by
  induction imgs generalizing best A with
  | nil => exact Or.inl ⟨rfl, by simp⟩
  | cons hd tl ih =>
    cases hd with
    | none => simpa [selectLargest] using ih best A
    | some b =>
      by_cases hb : A < b.width * b.height
      · have h1 : selectLargest (some b :: tl) best A =
            selectLargest tl (some b) (b.width * b.height) := by
          simp [selectLargest, hb]
        rcases ih (some b) (b.width * b.height) with
          ⟨heq, hall⟩ | ⟨l₁, b', l₂, hsplit, heq, hlt, hl₁, hl₂⟩
        · right
          exact ⟨[], b, tl.filterMap id, by simp, by rw [h1, heq], hb,
            by simp, hall⟩
        · right
          refine ⟨b :: l₁, b', l₂, by simp [hsplit], by rw [h1, heq],
            lt_trans hb hlt, ?_, hl₂⟩
          intro c hc
          rcases List.mem_cons.mp hc with rfl | hc
          · exact hlt
          · exact hl₁ c hc
      · push_neg at hb
        have h1 : selectLargest (some b :: tl) best A =
            selectLargest tl best A := by
          have hnb : ¬A < b.width * b.height := by omega
          simp [selectLargest, hnb]
        rcases ih best A with
          ⟨heq, hall⟩ | ⟨l₁, b', l₂, hsplit, heq, hlt, hl₁, hl₂⟩
        · left
          refine ⟨by rw [h1, heq], ?_⟩
          intro c hc
          have hfm : (some b :: tl).filterMap id = b :: tl.filterMap id := by
            simp
          rw [hfm] at hc
          rcases List.mem_cons.mp hc with rfl | hc
          · exact hb
          · exact hall c hc
        · right
          refine ⟨b :: l₁, b', l₂, by simp [hsplit], by rw [h1, heq], hlt,
            ?_, hl₂⟩
          intro c hc
          rcases List.mem_cons.mp hc with rfl | hc
          · omega
          · exact hl₁ c hc

/-- C6 counterexample: the claim promises the maximal-area image's bytes
on every page with at least one embedded raster image, but an image whose
reported area is zero never beats the initial best area `0`: the page
holds one embedded image yet Strategy A returns `(none, none)`. -/
theorem claim_C6_counterexample :
    pageZeroArea.images ≠ [] ∧
    extract_largest_raster_image pageZeroArea = (none, none) := by
  constructor
  · simp [pageZeroArea]
  · rfl

/-- C6 (amended): on every page where some successfully extracted
embedded raster image has positive area, Strategy A returns the bytes of
the image maximizing `width × height` — the first-seen one under ties
(everything before it is strictly smaller, everything after no larger) —
with mime type `image/{ext}` derived from its embedded format
extension. -/
theorem claim_C6_amended_thm (page : Page)
    (hpos : ∃ c ∈ page.images.filterMap id, 0 < c.width * c.height) :
    ∃ l₁ b l₂, page.images.filterMap id = l₁ ++ b :: l₂ ∧
      (∀ c ∈ l₁, c.width * c.height < b.width * b.height) ∧
      (∀ c ∈ l₂, c.width * c.height ≤ b.width * b.height) ∧
      extract_largest_raster_image page =
        (some b.image, some (imageMime b.ext)) := by
  rcases selectLargest_spec page.images none 0 with
    ⟨heq, hall⟩ | ⟨l₁, b, l₂, hsplit, heq, hlt, hl₁, hl₂⟩
  · obtain ⟨c, hc, hcpos⟩ := hpos
    have := hall c hc
    omega
  · refine ⟨l₁, b, l₂, hsplit, hl₁, hl₂, ?_⟩
    have hne : ¬(page.images = []) := by
      intro hE
      rw [hE] at hsplit
      simp at hsplit
    simp [extract_largest_raster_image, hne, heq]

/-- C6 witness: a page with images of areas 4, 50, 50 (plus a falsy
extraction); the amended claim applies, and evaluation confirms the
first-seen area-50 image (a JPEG) is returned. -/
theorem claim_C6_witness :
    (∃ l₁ b l₂, pageImgs.images.filterMap id = l₁ ++ b :: l₂ ∧
      (∀ c ∈ l₁, c.width * c.height < b.width * b.height) ∧
      (∀ c ∈ l₂, c.width * c.height ≤ b.width * b.height) ∧
      extract_largest_raster_image pageImgs =
        (some b.image, some (imageMime b.ext))) ∧
    extract_largest_raster_image pageImgs = (some [2], some "image/jpeg") :=
  ⟨claim_C6_amended_thm pageImgs ⟨imgBig1, by decide, by decide⟩, by decide⟩

/-- C7: with a valid in-range page, (i) when Strategy A finds an image
its result is returned untouched (Strategy B does not run); (ii) when
Strategy A finds nothing and the figure-label hint is absent or empty,
the result is `(none, none)`; (iii) when Strategy A finds nothing and the
label is present, the first caption hit of the first matching pattern
yields a clip rectangle spanning the page's horizontal extent minus a
20px margin, vertically from `max(page_top, caption_top − 0.4·page_height)`
down to `caption_top − 5`, rendered at a `150/72` scale factor. -/
theorem claim_C7_thm (env : FigEnv) (pdf_bytes : Bytes) (fi : FigureInfo)
    (n : Int) (doc : Doc) (page : Page)
    (hn : fi.page_number = some n)
    (hopen : env.openPdf pdf_bytes = .ok doc)
    (hr : ¬(n - 1 < 0 ∨ (doc.pages.length : Int) ≤ n - 1))
    (hpage : doc.pages.get? (n - 1).toNat = some page) :
    ((extract_largest_raster_image page).1.isSome = true →
      extract_figure_image env pdf_bytes fi =
        extract_largest_raster_image page) ∧
    ((extract_largest_raster_image page).1 = none →
      (fi.figure_number = none ∨ fi.figure_number = some "") →
      extract_figure_image env pdf_bytes fi = (none, none)) ∧
    (∀ fn crect rest,
      (extract_largest_raster_image page).1 = none →
      fi.figure_number = some fn → fn ≠ "" →
      firstHit (captionPatterns env.re_escape fn) page.search_for =
        crect :: rest →
      extract_figure_image env pdf_bytes fi =
        (match page.get_pixmap (150 / 72)
          { x0 := page.rect.x0 + 20,
            y0 := max page.rect.y0
              (crect.y0 - (page.rect.y1 - page.rect.y0) * (2 / 5)),
            x1 := page.rect.x1 - 20,
            y1 := crect.y0 - 5 } with
        | some b => (some b, some "image/png")
        | none => (none, none))) := by
  obtain ⟨hlt, hget⟩ := List.get?_eq_some.mp hpage
  have hred : extract_figure_image env pdf_bytes fi =
      figureFromPage env.re_escape page fi.figure_number := by
    simp only [extract_figure_image, hn, hopen]
    rw [dif_neg hr]
    rw [hget]
  refine ⟨?_, ?_, ?_⟩
  · intro hA
    rw [hred]
    simp [figureFromPage, hA]
  · intro hA hfn
    rw [hred]
    rcases hfn with h | h <;> simp [figureFromPage, hA, h]
  · intro fn crect rest hA hfn hfe hsearch
    rw [hred]
    have hclip : get_clip_rect_from_caption env.re_escape page fn =
        some { x0 := page.rect.x0 + 20,
               y0 := max page.rect.y0
                 (crect.y0 - (page.rect.y1 - page.rect.y0) * (2 / 5)),
               x1 := page.rect.x1 - 20,
               y1 := crect.y0 - 5 } := by
      simp [get_clip_rect_from_caption, hsearch, Rect.height]
    simp [figureFromPage, hA, hfn, hfe, hclip, render_clip_region]

/-- C7 witness: a concrete page whose search hits the first caption
pattern at `capRect`; the clip-and-render equality from the theorem,
plus concrete evaluation to the rendered PNG bytes. -/
theorem claim_C7_witness :
    (extract_figure_image envFigCap [5] fiCap =
      (match pageCaption.get_pixmap (150 / 72)
        { x0 := pageCaption.rect.x0 + 20,
          y0 := max pageCaption.rect.y0
            (capRect.y0 -
              (pageCaption.rect.y1 - pageCaption.rect.y0) * (2 / 5)),
          x1 := pageCaption.rect.x1 - 20,
          y1 := capRect.y0 - 5 } with
      | some b => (some b, some "image/png")
      | none => (none, none))) ∧
    extract_figure_image envFigCap [5] fiCap =
      (some [42], some "image/png") :=
  ⟨(claim_C7_thm envFigCap [5] fiCap 1 docCaption pageCaption rfl rfl
      (by decide) rfl).2.2 "2" capRect [] rfl rfl (by decide) rfl,
   by decide⟩

/-- C8: figure identification is best-effort — a collaborator-side error
or a JSON parse failure yields `none`; when the stripped reply starts
with a code fence and has more than two lines, exactly the middle lines
(`lines[1:-1]`) are handed to the JSON parser, and otherwise the stripped
reply itself is. -/
theorem claim_C8_thm (env : GeminiEnv) (pdf_bytes : Bytes) :
    (∀ e, env.generate pdf_bytes = .error e →
      identify_important_figure env pdf_bytes = none) ∧
    (∀ raw e, env.generate pdf_bytes = .ok raw →
      env.json_loads (stripCodeFence (pyStrip raw)) = .error e →
      identify_important_figure env pdf_bytes = none) ∧
    (∀ raw, env.generate pdf_bytes = .ok raw →
      ("```".data).isPrefixOf (pyStrip raw).data = true →
      2 < (splitLines (pyStrip raw).data).length →
      identify_important_figure env pdf_bytes =
        (match env.json_loads (String.mk (joinLines
            (((splitLines (pyStrip raw).data).drop 1).dropLast))) with
         | .error _ => none
         | .ok d =>
           some (FigureInfo.mk d.figure_number d.page_number
             d.description d.reason))) ∧
    (∀ raw, env.generate pdf_bytes = .ok raw →
      ("```".data).isPrefixOf (pyStrip raw).data = false →
      identify_important_figure env pdf_bytes =
        (match env.json_loads (pyStrip raw) with
         | .error _ => none
         | .ok d =>
           some (FigureInfo.mk d.figure_number d.page_number
             d.description d.reason))) := by
  refine ⟨?_, ?_, ?_, ?_⟩
  · intro e he
    simp [identify_important_figure, he]
  · intro raw e hraw hj
    simp [identify_important_figure, hraw, hj]
  · intro raw hraw hpre hlen
    simp [identify_important_figure, hraw, stripCodeFence, hpre, hlen]
  · intro raw hraw hpre
    simp [identify_important_figure, hraw, stripCodeFence, hpre]

/-- C8 witness: a fenced three-line reply; the middle line is parsed and
the identification succeeds, evaluated concretely. -/
theorem claim_C8_witness :
    identify_important_figure geminiEnvFence [1] =
      (match geminiEnvFence.json_loads (String.mk (joinLines
          (((splitLines (pyStrip fencedReply).data).drop 1).dropLast))) with
       | .error _ => none
       | .ok d =>
         some (FigureInfo.mk d.figure_number d.page_number
           d.description d.reason)) ∧
    identify_important_figure geminiEnvFence [1] =
      some { figure_number := some "1", page_number := some 3,
             description := none, reason := none } :=
  ⟨(claim_C8_thm geminiEnvFence [1]).2.2.1 fencedReply rfl (by decide)
      (by decide),
   by decide⟩

end Tldrist
